import Mathlib

/-!
Verification development for the pyumann timezone / metadata-consistency core.

The Python source is shallowly embedded:
* `umann.geo.tz4d` — the spatial timezone fallback resolution
  (`tz_from_coords`) and the DST-aware local-offset resolution
  (`tz_offset_from_tz_unaware_dt`);
* `umann.metadata.chk_tz` — GPS / offset / capture-time extraction and the
  timezone consistency check (`check_timezone_consistency`);
* `umann.metadata.chk_datetime` — the datetime tag catalog and the
  rule-driven consistency checker (`check_datetime_consistency`).

Floating-point values are modelled as rationals, Python `datetime` values as
integer second counts in the proleptic Gregorian calendar, and Python
exceptions as an `Except` error type.  External collaborators (shapely
geometry predicates, the rtree bounding-box index, the IANA rule provider)
are modelled as parameters, as the specification treats them as trusted
external interfaces.
-/

namespace Pyumann

/-- `tz4d.lon_delta_deg`: minimal absolute longitude difference in degrees,
accounting for wrap-around at the antimeridian (`min(|a-b|, 360-|a-b|)`). -/
def lon_delta_deg (a b : ℚ) : ℚ :=
  let d := |a - b|
  if d > 180 then 360 - d else d

/-- One polygon entry of the spatial index.  The geometric primitives that
the source obtains from shapely / rtree (prepared-geometry containment,
point-to-polygon planar distance, centroid longitude, bounding-box hit) are
external collaborators and are modelled as function fields. -/
structure TzPolygon where
  tzName : String
  /-- rtree bounding-box candidate test for a query point `(lon, lat)`. -/
  bboxContains : ℚ → ℚ → Bool
  /-- prepared-geometry exact containment test for `(lon, lat)`. -/
  containsPt : ℚ → ℚ → Bool
  /-- shapely planar distance from the point `(lon, lat)` to the polygon. -/
  distTo : ℚ → ℚ → ℚ
  /-- longitude of the polygon centroid (`geom.centroid.x`). -/
  centroidLon : ℚ

/-- One step of the running minimum used in the fallback scan of
`tz_from_coords`: a strictly smaller distance replaces the current best, so
ties are kept by the first-encountered index. -/
def minStep (cur : Option (Nat × ℚ)) (i : Nat) (d : ℚ) : Option (Nat × ℚ) :=
  match cur with
  | none => some (i, d)
  | some (j, dj) => if d < dj then some (i, d) else some (j, dj)

/-- The fallback loop of `tz_from_coords`: a single pass over all polygons
maintaining the nearest polygon overall (`near`) and the nearest polygon
whose centroid longitude is within the hard-coded `7.5`-degree constraint
(`con`).  `i` is the index of the head of the remaining list. -/
def fallbackScan (lat lon : ℚ) :
    List TzPolygon → Nat → Option (Nat × ℚ) → Option (Nat × ℚ) →
      Option (Nat × ℚ) × Option (Nat × ℚ)
  | [], _, near, con => (near, con)
  | p :: rest, i, near, con =>
    let d := p.distTo lon lat
    let near' := minStep near i d
    let con' :=
      if lon_delta_deg lon p.centroidLon ≤ 7.5 then minStep con i d else con
    fallbackScan lat lon rest (i + 1) near' con'

/-- `tz4d.tz_from_coords`.  First an exact containment pass over the rtree
candidates; with a falsy (zero) tolerance the fallback is disabled;
otherwise the single-pass fallback scan picks the constrained nearest
polygon if one exists, else the absolute nearest. -/
def tz_from_coords (polys : List TzPolygon) (lat lon : ℚ)
    (tolerance_lon_delta_deg : ℚ := 7.5) : Option String :=
  match polys.find? (fun p => p.bboxContains lon lat && p.containsPt lon lat) with
  | some p => some p.tzName
  | none =>
    if tolerance_lon_delta_deg = 0 then none
    else
      match fallbackScan lat lon polys 0 none none with
      | (near, con) =>
        match con with
        | some (i, _) => (polys.get? i).map TzPolygon.tzName
        | none =>
          match near with
          | some (i, _) => (polys.get? i).map TzPolygon.tzName
          | none => none

/-- First enumerated index achieving the strictly minimal distance to the
query point (ties broken by first-encountered-strictly-smaller), as §4.1 of
the specification words the fallback selection. -/
def argminDist (lat lon : ℚ) (l : List (Nat × TzPolygon)) : Option (Nat × ℚ) :=
  l.foldl (fun acc ip => minStep acc ip.1 (ip.2.distTo lon lat)) none

/-- The fallback selection as the specification words it, with the
centroid-longitude threshold `thr` a parameter: partition the polygons into
the longitude-constrained set (difference at most `thr`) and all, and pick
the minimum-distance polygon of the constrained set when non-empty,
otherwise the minimum-distance polygon overall. -/
def fallbackSelect (thr lat lon : ℚ) (polys : List TzPolygon) : Option String :=
  let e := polys.enum
  let constrained :=
    e.filter (fun ip => lon_delta_deg lon ip.2.centroidLon ≤ thr)
  match argminDist lat lon constrained with
  | some (i, _) => (polys.get? i).map TzPolygon.tzName
  | none =>
    match argminDist lat lon e with
    | some (i, _) => (polys.get? i).map TzPolygon.tzName
    | none => none

/-- Modelled from the spec: the external time-rule provider (§4.2, §6) for a
zone, restricted to a single offset transition in the window of interest.
`transUtc` is the UTC instant of the transition in seconds, `offBefore` and
`offAfter` the UTC offsets (seconds) in force before and after it. -/
structure ZoneRules where
  transUtc : Int
  offBefore : Int
  offAfter : Int

/-- Modelled from the spec: `utcoffset()` of the rule provider under PEP-495
fold semantics, as a function of the naive local time `t` (seconds).  With
`fold = 0` the pre-transition offset applies up to the transition instant
expressed in the later of the two local clocks; with `fold = 1` up to the
earlier.  This reproduces zoneinfo behaviour on both fall-back (ambiguous)
and spring-forward (gap) local times. -/
def ZoneRules.offAt (z : ZoneRules) (t : Int) (fold : Bool) : Int :=
  if fold then
    if t < z.transUtc + min z.offBefore z.offAfter then z.offBefore else z.offAfter
  else
    if t < z.transUtc + max z.offBefore z.offAfter then z.offBefore else z.offAfter

/-- A naive local time that occurs twice (fall-back transition): the offset
decreases and `t` lies in the repeated local interval. -/
def ZoneRules.Ambiguous (z : ZoneRules) (t : Int) : Prop :=
  z.offAfter < z.offBefore ∧
    z.transUtc + z.offAfter ≤ t ∧ t < z.transUtc + z.offBefore

/-- A naive local time that occurs zero times (spring-forward gap): the
offset increases and `t` lies in the skipped local interval. -/
def ZoneRules.Nonexistent (z : ZoneRules) (t : Int) : Prop :=
  z.offBefore < z.offAfter ∧
    z.transUtc + z.offBefore ≤ t ∧ t < z.transUtc + z.offAfter

/-- `tz4d.tz_offset_from_tz_unaware_dt`: resolve the zone for the
coordinates (default longitude tolerance), then compute the UTC offset of
the naive local time `t` (seconds): if the two folds disagree return the
`fold = 1` offset, else compare the offsets one hour after and one hour
before and return the "after" sample when they disagree, else the offset at
the wall time itself. -/
def tz_offset_from_tz_unaware_dt (polys : List TzPolygon)
    (rules : String → ZoneRules) (lat lon : ℚ) (t : Int) : Option Int :=
  match tz_from_coords polys lat lon with
  | none => none
  | some name =>
    let z := rules name
    let off0 := z.offAt t false
    let off1 := z.offAt t true
    if off0 ≠ off1 then some off1
    else
      let plus := z.offAt (t + 3600) false
      let minus := z.offAt (t - 3600) false
      if plus ≠ minus then some plus
      else some off0

/-! ### Python exceptions and `datetime` modelling -/

/-- The Python exceptions raised by the embedded code.  `dateTimeParseError`
and `offsetParseError` are subclasses of `DateTimeConsistencyError`;
`keyError`, `typeError` and `valueError` are builtins. -/
inductive PyErr where
  | tzMismatch (msg : String)
  | noGps (msg : String)
  | noCaptureDateTime (msg : String)
  | dateTimeParseError (msg : String)
  | offsetParseError (msg : String)
  | keyError (key : String)
  | typeError (msg : String)
  | valueError (msg : String)
deriving DecidableEq

/-- The single-quote character, used when reproducing Python `repr` text. -/
def sq : String := String.singleton (Char.ofNat 39)

/-- Python `repr` of a string, simplified to single-quote wrapping. -/
def reprStr (s : String) : String := sq ++ s ++ sq

/-- `trace_utils.str_exc`: `f"{type(exc).__name__}: {exc}"`.  `str` of a
`KeyError` is the `repr` of its key. -/
def strExc : PyErr → String
  | .tzMismatch m => "TzMismatchError: " ++ m
  | .noGps m => "NoGpsError: " ++ m
  | .noCaptureDateTime m => "NoCaptureDateTimeError: " ++ m
  | .dateTimeParseError m => "DateTimeParseError: " ++ m
  | .offsetParseError m => "OffsetParseError: " ++ m
  | .keyError k => "KeyError: " ++ reprStr k
  | .typeError m => "TypeError: " ++ m
  | .valueError m => "ValueError: " ++ m

/-- Gregorian leap-year rule, as Python's `datetime` uses it. -/
def isLeap (y : Nat) : Bool := y % 4 == 0 && (y % 100 != 0 || y % 400 == 0)

/-- Days in a month of the proleptic Gregorian calendar. -/
def daysInMonth (y mo : Nat) : Nat :=
  if mo = 2 then (if isLeap y then 29 else 28)
  else if mo = 4 ∨ mo = 6 ∨ mo = 9 ∨ mo = 11 then 30
  else 31

/-- Days from 1970-01-01 to the civil date `(y, mo, d)` (standard `O(1)`
civil-calendar arithmetic). -/
def daysFromCivil (y mo d : Nat) : Int :=
  let yi : Int := (y : Int) - (if mo ≤ 2 then 1 else 0)
  let era : Int := yi.fdiv 400
  let yoe : Int := yi - era * 400
  let mp : Int := if mo > 2 then (mo : Int) - 3 else (mo : Int) + 9
  let doy : Int := (153 * mp + 2).fdiv 5 + (d : Int) - 1
  let doe : Int := yoe * 365 + yoe.fdiv 4 - yoe.fdiv 100 + doy
  era * 146097 + doe - 719468

/-- Civil date `(y, mo, d)` of the day `z` days after 1970-01-01 (inverse of
`daysFromCivil`). -/
def civilFromDays (z0 : Int) : Nat × Nat × Nat :=
  let z : Int := z0 + 719468
  let era : Int := z.fdiv 146097
  let doe : Int := z - era * 146097
  let yoe : Int := (doe - doe.fdiv 1460 + doe.fdiv 36524 - doe.fdiv 146096).fdiv 365
  let y : Int := yoe + era * 400
  let doy : Int := doe - (365 * yoe + yoe.fdiv 4 - yoe.fdiv 100)
  let mp : Int := (5 * doy + 2).fdiv 153
  let d : Int := doy - (153 * mp + 2).fdiv 5 + 1
  let m : Int := if mp < 10 then mp + 3 else mp - 9
  ((if m ≤ 2 then y + 1 else y).toNat, m.toNat, d.toNat)

/-- Python `datetime(year, month, day, hour, minute, second)`: field
validation (raising `ValueError` with CPython's messages) followed by
conversion to seconds since 1970-01-01 in the proleptic Gregorian
calendar.  Naive datetimes are represented by this second count. -/
def mkDatetime (y mo d h mi s : Nat) : Except PyErr Int :=
  if y < 1 ∨ y > 9999 then
    .error (.valueError ("year " ++ toString y ++ " is out of range"))
  else if mo < 1 ∨ mo > 12 then .error (.valueError "month must be in 1..12")
  else if d < 1 ∨ d > daysInMonth y mo then
    .error (.valueError "day is out of range for month")
  else if h > 23 then .error (.valueError "hour must be in 0..23")
  else if mi > 59 then .error (.valueError "minute must be in 0..59")
  else if s > 59 then .error (.valueError "second must be in 0..59")
  else .ok (daysFromCivil y mo d * 86400 + (h : Int) * 3600 + (mi : Int) * 60 + (s : Int))

/-- Zero-pad a numeral to two digits (`f"{n:02d}"`). -/
def pad2 (n : Nat) : String := if n < 10 then "0" ++ toString n else toString n

/-- Zero-pad a numeral to four digits (ISO year field). -/
def pad4 (n : Nat) : String :=
  if n < 10 then "000" ++ toString n
  else if n < 100 then "00" ++ toString n
  else if n < 1000 then "0" ++ toString n
  else toString n

/-- `yaml_utils.stringify_datetime` with `exif_compatible=True`:
`isoformat(sep=" ")` with `-` replaced by `:` (no microseconds occur in the
modelled paths). -/
def stringify_datetime_exif (t : Int) : String :=
  let days := t.fdiv 86400
  let tod := (t - days * 86400).toNat
  match civilFromDays days with
  | (y, mo, d) =>
    pad4 y ++ ":" ++ pad2 mo ++ ":" ++ pad2 d ++ " " ++
      pad2 (tod / 3600) ++ ":" ++ pad2 (tod % 3600 / 60) ++ ":" ++ pad2 (tod % 60)

/-- `yaml_utils.stringify_timedelta`: offset format `±HH:MM`, sign from the
truncated total seconds. -/
def stringify_timedelta (td : Int) : String :=
  let sign := if td ≥ 0 then "+" else "-"
  let ts := td.natAbs
  sign ++ pad2 (ts / 3600) ++ ":" ++ pad2 (ts % 3600 / 60)

/-! ### `chk_tz` — metadata values and extraction helpers -/

/-- A scalar or list metadata value as delivered by the external metadata
tool (flat record shape of §6). -/
inductive PyVal where
  | str (s : String)
  | num (q : ℚ)
  | vlist (xs : List PyVal)

/-- Python truthiness of a metadata value. -/
def PyVal.truthy : PyVal → Bool
  | .str s => !s.isEmpty
  | .num q => q != 0
  | .vlist xs => !xs.isEmpty

/-- Python `str()` of a metadata value.  Integer-valued numbers print like
Python ints; other numeric and list reprs are approximated (they are never
offset- or datetime-shaped, so they fail the same parses either way). -/
def PyVal.pyStr : PyVal → String
  | .str s => s
  | .num q => if q.den = 1 then toString q.num else toString q
  | .vlist _ => "[...]"

/-- Dictionary lookup `md.get(k)` on the ordered metadata record. -/
def mdGet (md : List (String × PyVal)) (k : String) : Option PyVal :=
  (md.find? (fun kv => kv.1 = k)).map (·.2)

/-- Python `str.strip()`: drop leading and trailing whitespace (the same
operation as `String.trim`, written over the character list so that it
evaluates by kernel reduction). -/
def pyStrip (s : String) : String :=
  String.mk (((s.toList.dropWhile Char.isWhitespace).reverse.dropWhile
    Char.isWhitespace).reverse)

/-- `String.endsWith`, written over the character lists so that it
evaluates by kernel reduction. -/
def strEndsWith (s suffix : String) : Bool :=
  suffix.toList.reverse.isPrefixOf s.toList.reverse

/-- Accumulate exactly `n` decimal digits. -/
def takeDigitsAux : Nat → Nat → List Char → Option (Nat × List Char)
  | 0, acc, cs => some (acc, cs)
  | n + 1, acc, c :: cs =>
    if c.isDigit then takeDigitsAux n (acc * 10 + (c.toNat - 48)) cs else none
  | _ + 1, _, [] => none

/-- Consume exactly `n` decimal digits, returning their value. -/
def takeDigits (n : Nat) (cs : List Char) : Option (Nat × List Char) :=
  takeDigitsAux n 0 cs

/-- Consume one expected character. -/
def expectChar (c : Char) : List Char → Option (List Char)
  | x :: xs => if x = c then some xs else none
  | [] => none

/-- Value of a digit string. -/
def digitsToNat (cs : List Char) : Nat :=
  cs.foldl (fun acc c => acc * 10 + (c.toNat - 48)) 0

/-- Full match of `[+-]\d{2}:\d{2}` (first branch of
`chk_tz._extract_offset.normalize`). -/
def isSignedHHMM (cs : List Char) : Bool :=
  match cs with
  | c :: rest =>
    (c = '+' || c = '-') &&
      (match takeDigits 2 rest with
       | some (_, r1) =>
         match expectChar ':' r1 with
         | some r2 =>
           match takeDigits 2 r2 with
           | some (_, r3) => r3.isEmpty
           | none => false
         | none => false
       | none => false)
  | [] => false

/-- Full match of `([+-])(\d{2})(\d{2})`, returning sign and fields. -/
def matchSignHHMM (cs : List Char) : Option (Char × Nat × Nat) :=
  match cs with
  | c :: rest =>
    if c = '+' ∨ c = '-' then
      match takeDigits 2 rest with
      | some (hh, r1) =>
        match takeDigits 2 r1 with
        | some (mm, r2) => if r2.isEmpty then some (c, hh, mm) else none
        | none => none
      | none => none
    else none
  | [] => none

/-- Full match of `([+-]?\d{1,2})(?::?(\d{2}))?` — with `colonRequired`,
of `([+-]?\d{1,2})(?::(\d{2}))?`.  The two-digit hour is tried first, as
the greedy regex does, backtracking to one digit.  Returns the optional
sign character, the hour digits value and the minute value (0 if the
optional group is absent). -/
def parseHhMm (cs0 : List Char) (colonRequired : Bool) :
    Option (Option Char × Nat × Nat) :=
  let (sgn, cs) :=
    match cs0 with
    | c :: rest =>
      if c = '+' ∨ c = '-' then ((some c : Option Char), rest) else (none, cs0)
    | [] => (none, cs0)
  let tryTail := fun (hh : Nat) (rest : List Char) =>
    match rest with
    | [] => some (sgn, hh, 0)
    | _ =>
      match expectChar ':' rest with
      | some r2 =>
        (takeDigits 2 r2).bind fun x =>
          if x.2.isEmpty then some (sgn, hh, x.1) else none
      | none =>
        if colonRequired then none
        else
          (takeDigits 2 rest).bind fun x =>
            if x.2.isEmpty then some (sgn, hh, x.1) else none
  (match takeDigits 2 cs with
   | some (hh, rest) => tryTail hh rest
   | none => none) <|>
  (match takeDigits 1 cs with
   | some (hh, rest) => tryTail hh rest
   | none => none)

/-- Case-insensitive `UTC`/`GMT` prefix followed by `\s*`. -/
def stripUtcGmt (cs : List Char) : Option (List Char) :=
  match cs with
  | a :: b :: c :: rest =>
    let p := String.mk [a.toLower, b.toLower, c.toLower]
    if p = "utc" ∨ p = "gmt" then some (rest.dropWhile Char.isWhitespace)
    else none
  | _ => none

/-- `chk_tz._extract_offset.normalize`: normalize an offset-like string to
`±HH:MM`, trying `±HH:MM`, `±HHMM`, `UTC/GMT±H[H][:MM]` and bare
`±H[H][:MM]` in that order. -/
def normalize (s0 : String) : Option String :=
  let s := pyStrip s0
  let cs := s.toList
  if isSignedHHMM cs then some s
  else
    match matchSignHHMM cs with
    | some (c, hh, mm) => some (String.singleton c ++ pad2 hh ++ ":" ++ pad2 mm)
    | none =>
      match (stripUtcGmt cs).bind (fun rest => parseHhMm rest false) with
      | some (sgn, hh, mm) =>
        -- sign from the captured sign character (int("-0") is not negative,
        -- but the initial startswith test already fixed the sign)
        let sign := if sgn = some '-' then "-" else "+"
        some (sign ++ pad2 hh ++ ":" ++ pad2 mm)
      | none =>
        match parseHhMm cs true with
        | some (sgn, hh, mm) =>
          -- sign from the signed integer value: int("-0") >= 0 gives "+"
          let sign := if sgn = some '-' ∧ hh ≠ 0 then "-" else "+"
          some (sign ++ pad2 hh ++ ":" ++ pad2 mm)
        | none => none

/-- Python `float()` on a string, modelled for plain signed decimal
literals with an optional fraction; exotic float syntax (exponents,
`inf`/`nan`) is outside the modelled subset. -/
def parseFloat (s0 : String) : Option ℚ :=
  let cs0 := (pyStrip s0).toList
  let (neg, cs) :=
    match cs0 with
    | '-' :: r => (true, r)
    | '+' :: r => (false, r)
    | _ => (false, cs0)
  let ip := cs.takeWhile Char.isDigit
  let rest := cs.dropWhile Char.isDigit
  let (fp, rest2) :=
    match rest with
    | '.' :: r => (r.takeWhile Char.isDigit, r.dropWhile Char.isDigit)
    | _ => (([] : List Char), rest)
  if rest2.isEmpty ∧ (!ip.isEmpty ∨ !fp.isEmpty) then
    let q : ℚ := (digitsToNat ip : ℚ) + (digitsToNat fp : ℚ) / ((10 : ℚ) ^ fp.length)
    some (if neg then -q else q)
  else none

/-- Python `float()` of a metadata value. -/
def PyVal.floatOf : PyVal → Option ℚ
  | .num q => some q
  | .str s => parseFloat s
  | .vlist _ => none

/-- `chk_tz._extract_lat_lon`: first candidate GPS tag pair whose two
values are both present and both convert to floats; `NoGpsError`
otherwise. -/
def _extract_lat_lon (md : List (String × PyVal)) : Except PyErr (ℚ × ℚ) :=
  let go := fun (latKey lonKey : String) =>
    match mdGet md latKey, mdGet md lonKey with
    | some la, some lo =>
      match la.floatOf, lo.floatOf with
      | some a, some b => some (a, b)
      | _, _ => none
    | _, _ => none
  match go "Composite:GPSLatitude" "Composite:GPSLongitude" with
  | some r => .ok r
  | none =>
    match go "EXIF:GPSLatitude" "EXIF:GPSLongitude" with
    | some r => .ok r
    | none =>
      .error (.noGps "No GPS coordinates in metadata (latitude/longitude missing)")

/-- The declared-offset fallback keys scanned by `_extract_offset` after
the primary EXIF tags, in source order. -/
def xmpOffsetKeys : List String :=
  ["XMP:TimeZone", "XMP:Timezone", "XMP:TimeZoneOffset", "XMP:TimezoneOffset",
   "QuickTime:TimeZone", "QuickTime:Timezone"]

/-- The last-resort scan step of `_extract_offset`: a string value that
normalizes is adopted, anything else is skipped. -/
def scanValue : PyVal → Option String
  | .str v => normalize v
  | _ => none

/-- `chk_tz._extract_offset`: primary EXIF offset tags, then
`EXIF:TimeZoneOffset` (possibly a list), then XMP/QuickTime variants, then
a last-resort scan of every string value; `TzMismatchError` when nothing
normalizes. -/
def _extract_offset (md : List (String × PyVal)) : Except PyErr String :=
  let tryKey := fun (k : String) =>
    match mdGet md k with
    | some v => if v.truthy then normalize v.pyStr else none
    | none => none
  match ["EXIF:OffsetTimeOriginal", "EXIF:OffsetTimeDigitized",
         "EXIF:OffsetTime"].findSome? tryKey with
  | some norm => .ok norm
  | none =>
    let tzoRes :=
      match mdGet md "EXIF:TimeZoneOffset" with
      | none => none
      | some tz0 =>
        let tz1 := match tz0 with
          | .vlist (x :: _) => x
          | v => v
        normalize tz1.pyStr
    match tzoRes with
    | some norm => .ok norm
    | none =>
      match xmpOffsetKeys.findSome? tryKey with
      | some norm => .ok norm
      | none =>
        match md.findSome? (fun kv => scanValue kv.2) with
        | some norm => .ok norm
        | none =>
          .error (.tzMismatch ("Missing timezone offset tag(s): " ++
            String.intercalate ", " ("EXIF:TimeZoneOffset" :: xmpOffsetKeys)))

/-- Full match of the EXIF base `YYYY:MM:DD HH:MM:SS` layout, returning the
six fields and the unconsumed tail. -/
def matchExifBase (cs : List Char) :
    Option ((Nat × Nat × Nat × Nat × Nat × Nat) × List Char) := do
  let (y, r1) ← takeDigits 4 cs
  let r2 ← expectChar ':' r1
  let (mo, r3) ← takeDigits 2 r2
  let r4 ← expectChar ':' r3
  let (d, r5) ← takeDigits 2 r4
  let r6 ← expectChar ' ' r5
  let (h, r7) ← takeDigits 2 r6
  let r8 ← expectChar ':' r7
  let (mi, r9) ← takeDigits 2 r8
  let r10 ← expectChar ':' r9
  let (s, r11) ← takeDigits 2 r10
  pure ((y, mo, d, h, mi, s), r11)

/-- ISO-8601 fallback of `_parse_exif_datetime`, modelled for
`YYYY-MM-DD[ T]HH:MM:SS[±HH:MM]` and bare dates; the offset is discarded
(`replace(tzinfo=None)`), and any validation failure yields `none` (the
source suppresses every exception on this path). -/
def parseIsoNaive (s : String) : Option Int := do
  let cs := s.toList
  let (y, r1) ← takeDigits 4 cs
  let r2 ← expectChar '-' r1
  let (mo, r3) ← takeDigits 2 r2
  let r4 ← expectChar '-' r3
  let (d, r5) ← takeDigits 2 r4
  let withTime := fun (h mi sec : Nat) (rest : List Char) => do
    let rest' ←
      match rest with
      | [] => some ([] : List Char)
      | c :: r6 =>
        if c = '+' ∨ c = '-' then do
          let (_, r7) ← takeDigits 2 r6
          let r8 ← expectChar ':' r7
          let (_, r9) ← takeDigits 2 r8
          some r9
        else none
    if rest'.isEmpty then (mkDatetime y mo d h mi sec).toOption else none
  match r5 with
  | [] => (mkDatetime y mo d 0 0 0).toOption
  | c :: r6 =>
    if c = ' ' ∨ c = 'T' then do
      let (h, r7) ← takeDigits 2 r6
      let r8 ← expectChar ':' r7
      let (mi, r9) ← takeDigits 2 r8
      let r10 ← expectChar ':' r9
      let (sec, r11) ← takeDigits 2 r10
      withTime h mi sec r11
    else none

/-- `chk_tz._parse_exif_datetime`: EXIF `YYYY:MM:DD HH:MM:SS` (field range
errors from `datetime` propagate), else the ISO fallback with trailing `Z`
rewritten to `+00:00`, else `TzMismatchError`. -/
def _parse_exif_datetime (s : String) : Except PyErr Int :=
  match matchExifBase s.toList with
  | some (f, rest) =>
    if rest.isEmpty then
      match f with
      | (y, mo, d, h, mi, sec) => mkDatetime y mo d h mi sec
    else fallbackIso s
  | none => fallbackIso s
where
  /-- the ISO branch shared by both regex-miss paths -/
  fallbackIso (s : String) : Except PyErr Int :=
    let s' := if strEndsWith s "Z" then s.dropRight 1 ++ "+00:00" else s
    match parseIsoNaive s' with
    | some t => .ok t
    | none => .error (.tzMismatch ("Unrecognized datetime format: " ++ reprStr s))

/-- `chk_tz._extract_naive_local_datetime`: the first truthy candidate
capture-datetime tag is parsed (parse failures propagate);
`NoCaptureDateTimeError` when none is present. -/
def extractNaiveGo (md : List (String × PyVal)) : List String → Except PyErr Int
  | [] =>
    .error (.noCaptureDateTime "Missing capture datetime (e.g., EXIF:DateTimeOriginal)")
  | k :: rest =>
    match mdGet md k with
    | some v => if v.truthy then _parse_exif_datetime v.pyStr else extractNaiveGo md rest
    | none => extractNaiveGo md rest

/-- The candidate capture-datetime keys, in source order. -/
def _extract_naive_local_datetime (md : List (String × PyVal)) : Except PyErr Int :=
  extractNaiveGo md
    ["EXIF:DateTimeOriginal", "EXIF:CreateDate", "EXIF:DateTimeDigitized",
     "XMP:DateTimeOriginal", "QuickTime:CreateDate"]

/-- `chk_tz._format_offset_hhmm`: `total_minutes = total_seconds() // 60`
(floor), then `±HH:MM` from its absolute value. -/
def _format_offset_hhmm (td : Int) : String :=
  let totalMinutes := td.fdiv 60
  let sign := if totalMinutes ≥ 0 then "+" else "-"
  let tm := totalMinutes.natAbs
  sign ++ pad2 (tm / 60) ++ ":" ++ pad2 (tm % 60)

/-- The eight probe points of the border-tolerance fallback, in source
order. -/
def probePoints (lat lon dlat dlon : ℚ) : List (ℚ × ℚ) :=
  [(lat + dlat, lon), (lat - dlat, lon), (lat, lon + dlon), (lat, lon - dlon),
   (lat + dlat, lon + dlon), (lat + dlat, lon - dlon),
   (lat - dlat, lon + dlon), (lat - dlat, lon - dlon)]

/-- `chk_tz.check_timezone_consistency`.  The real-valued `math.cos` of the
latitude (radians conversion included) is an external numeric primitive and
is passed as `cosFn`.  Extraction failures and mismatches surface as
errors; the probe loop accepts on the first matching neighbour. -/
def check_timezone_consistency (polys : List TzPolygon)
    (rules : String → ZoneRules) (cosFn : ℚ → ℚ)
    (md : List (String × PyVal)) (tolerance_in_meters : ℚ := 200) :
    Except PyErr Unit :=
  match _extract_lat_lon md with
  | .error e => .error e
  | .ok (lat, lon) =>
    match _extract_offset md with
    | .error e => .error e
    | .ok declared =>
      match _extract_naive_local_datetime md with
      | .error e => .error e
      | .ok dt_local =>
        match tz_offset_from_tz_unaware_dt polys rules lat lon dt_local with
        | none => .error (.tzMismatch "Cannot resolve timezone at coords")
        | some expected_td =>
          let expected := _format_offset_hhmm expected_td
          if expected ≠ declared then
            let mPerDegLat : ℚ := 111320
            let mPerDegLon : ℚ := max (1 / 1000000) (mPerDegLat * cosFn lat)
            let dlat := tolerance_in_meters / mPerDegLat
            let dlon := tolerance_in_meters / mPerDegLon
            if (probePoints lat lon dlat dlon).any (fun c =>
                match tz_offset_from_tz_unaware_dt polys rules c.1 c.2 dt_local with
                | none => false
                | some td => _format_offset_hhmm td = declared) then
              .ok ()
            else
              .error (.tzMismatch "Timezone offset mismatch")
          else
            .ok ()

/-! ### `chk_datetime` — tag catalog and per-tag parsing -/

/-- The compiled regex grammars of `chk_datetime`: `EXIF_DT`,
`EXIF_DT_OPT_TZ`, `EXIF_DT_OPT_F_OPT_TZ` and `EXIF_DT_OPT_F_Z`. -/
inductive Pat where
  | exifDT
  | exifDTOptTz
  | exifDTOptFOptTz
  | exifDTOptFZ
deriving DecidableEq

/-- The named groups produced by a successful grammar match. -/
structure DtGroups where
  year : Nat
  month : Nat
  day : Nat
  hour : Nat
  minute : Nat
  second : Nat
  subsec : Option String := none
  offset : Option String := none

/-- `EXIF_TZ0`: `[+-][0-9]{2}:[0-9]{2}|Z`, returning the matched text. -/
def matchTz : List Char → Option (String × List Char)
  | 'Z' :: rest => some ("Z", rest)
  | c :: a :: b :: ':' :: d :: e :: r =>
    if (c = '+' ∨ c = '-') ∧ a.isDigit ∧ b.isDigit ∧ d.isDigit ∧ e.isDigit then
      some (String.mk [c, a, b, ':', d, e], r)
    else none
  | _ => none

/-- `EXIF_Z0`: `[+-]00:00|Z`. -/
def matchZOnly : List Char → Option (String × List Char)
  | 'Z' :: rest => some ("Z", rest)
  | c :: '0' :: '0' :: ':' :: '0' :: '0' :: r =>
    if c = '+' ∨ c = '-' then some (String.mk [c, '0', '0', ':', '0', '0'], r)
    else none
  | _ => none

/-- `EXIF_OPT_F0`: optional `[.][0-9]*` fraction; the digit run may be
empty, as in the source grammar. -/
def matchFrac : List Char → Option String × List Char
  | '.' :: r => (some (String.mk (r.takeWhile Char.isDigit)), r.dropWhile Char.isDigit)
  | cs => (none, cs)

/-- Anchored full match of a tag grammar against a candidate string. -/
def matchPat (p : Pat) (s : String) : Option DtGroups := do
  let (f, rest) ← matchExifBase s.toList
  match f with
  | (y, mo, d, h, mi, sec) =>
    let base : DtGroups :=
      {year := y, month := mo, day := d, hour := h, minute := mi, second := sec}
    match p with
    | .exifDT => if rest.isEmpty then some base else none
    | .exifDTOptTz =>
      match rest with
      | [] => some base
      | _ => do
        let (off, r) ← matchTz rest
        if r.isEmpty then some {base with offset := some off} else none
    | .exifDTOptFOptTz =>
      match matchFrac rest with
      | (subs, rest2) =>
        let base := {base with subsec := subs}
        match rest2 with
        | [] => some base
        | _ => do
          let (off, r) ← matchTz rest2
          if r.isEmpty then some {base with offset := some off} else none
    | .exifDTOptFZ =>
      match matchFrac rest with
      | (subs, rest2) => do
        let (off, r) ← matchZOnly rest2
        if r.isEmpty then some {base with subsec := subs, offset := some off}
        else none

/-- One entry of the static `TAGS` catalog (§3 TagDefinition).  Derived
companion entries carry only `derived_from` and have no grammar. -/
structure TagDef where
  anchor : Bool := false
  pattern : Option Pat := none
  time_tag : Option String := none
  offset_tag : Option String := none
  subsec_tag : Option String := none
  offset_val : Option String := none
  tolerance_secs : Nat := 0
  tz_aware : Bool := false
  derived_from : Option String := none
deriving DecidableEq

/-- The `TAGS` catalog under the default `G1` tag-group configuration, with
the derived companion entries appended in `set_derived_additions` order. -/
def TAGS : List (String × TagDef) :=
  [("ExifIFD:DateTimeOriginal",
    {anchor := true, pattern := some .exifDTOptFOptTz,
     offset_tag := some "ExifIFD:OffsetTimeOriginal",
     subsec_tag := some "ExifIFD:SubSecTimeOriginal"}),
   ("ExifIFD:CreateDate",
    {pattern := some .exifDTOptFOptTz, offset_tag := some "ExifIFD:OffsetTime",
     subsec_tag := some "ExifIFD:SubSecTime"}),
   ("ExifIFD:DateTimeDigitized",
    {pattern := some .exifDTOptFOptTz,
     offset_tag := some "ExifIFD:OffsetTimeDigitized",
     subsec_tag := some "ExifIFD:SubSecTimeDigitized"}),
   ("XMP:DateTimeOriginal", {pattern := some .exifDTOptFOptTz}),
   ("XMP:CreateDate", {pattern := some .exifDTOptFOptTz}),
   ("XMP:DateCreated", {pattern := some .exifDTOptFOptTz}),
   ("XMP:DateTimeDigitized", {pattern := some .exifDTOptFOptTz}),
   ("XMP-exif:GPSDateTime", {pattern := some .exifDTOptFZ, tz_aware := true}),
   ("IPTC:DateCreated",
    {time_tag := some "IPTC:TimeCreated", pattern := some .exifDTOptTz}),
   ("QuickTime:CreateDate", {pattern := some .exifDTOptTz}),
   ("MakerNotes:DateTimeUTC",
    {pattern := some .exifDT, offset_val := some "Z", tolerance_secs := 10}),
   ("MakerNotes:TimeStamp",
    {pattern := some .exifDTOptFOptTz, tolerance_secs := 10}),
   ("EXIF:GPSDateStamp",
    {time_tag := some "EXIF:GPSTimeStamp", pattern := some .exifDT,
     offset_val := some "Z", tolerance_secs := 1799, tz_aware := true}),
   ("ExifIFD:OffsetTimeOriginal", {derived_from := some "ExifIFD:DateTimeOriginal"}),
   ("ExifIFD:SubSecTimeOriginal", {derived_from := some "ExifIFD:DateTimeOriginal"}),
   ("ExifIFD:OffsetTime", {derived_from := some "ExifIFD:CreateDate"}),
   ("ExifIFD:SubSecTime", {derived_from := some "ExifIFD:CreateDate"}),
   ("ExifIFD:OffsetTimeDigitized", {derived_from := some "ExifIFD:DateTimeDigitized"}),
   ("ExifIFD:SubSecTimeDigitized", {derived_from := some "ExifIFD:DateTimeDigitized"}),
   ("IPTC:TimeCreated", {derived_from := some "IPTC:DateCreated"}),
   ("EXIF:GPSTimeStamp", {derived_from := some "EXIF:GPSDateStamp"})]

/-- Catalog lookup `TAGS[tag]`. -/
def lookupTag (tag : String) : Option TagDef :=
  (TAGS.find? (fun kv => kv.1 = tag)).map (·.2)

/-- Dictionary lookup on a string-valued metadata record (the Datetime
Checker reads tag values as strings). -/
def mdGetS (md : List (String × String)) (k : String) : Option String :=
  (md.find? (fun kv => kv.1 = k)).map (·.2)

/-- `chk_datetime._parse_offset`: trailing `Z` rewritten to `+00:00`, then
an anchored `([+-])(\d2):(\d2)` match into signed seconds;
`OffsetParseError` otherwise. -/
def _parse_offset (offset_str : String) : Except PyErr Int :=
  let s := if strEndsWith offset_str "Z" then offset_str.dropRight 1 ++ "+00:00"
    else offset_str
  let bad : Except PyErr Int := .error (.offsetParseError "Invalid offset format")
  match s.toList with
  | c :: rest =>
    if c = '+' ∨ c = '-' then
      match takeDigits 2 rest with
      | some (hh, r1) =>
        match expectChar ':' r1 with
        | some r2 =>
          match takeDigits 2 r2 with
          | some (mm, r3) =>
            if r3.isEmpty then
              let sign : Int := if c = '+' then 1 else -1
              .ok (sign * ((hh : Int) * 3600 + (mm : Int) * 60))
            else bad
          | none => bad
        | none => bad
      | none => bad
    else bad
  | [] => bad

/-- The `ParsedTagValue` triple returned by
`_parse_dt_with_offset_from_md_tagname`. -/
structure ParsedTag where
  dt_naive : Int
  offset_timedelta : Option Int
  subsec : Option String
deriving DecidableEq

/-- `chk_datetime._parse_dt_with_offset_from_md_tagname`: concatenate the
tag value with its present companion values (time, subsecond, offset, in
that order, with their separators), match the tag grammar, resolve the
offset (a forced `offset_val` takes precedence over the matched group) and
build the naive datetime.  `DateTimeParseError`/`KeyError` raised inside
are wrapped into a `Cannot parse …` `DateTimeParseError`; range errors
from `datetime` (`ValueError`) propagate unwrapped. -/
def _parse_dt_with_offset_from_md_tagname (md : List (String × String))
    (dt_tag : String) : Except PyErr ParsedTag :=
  let td := (lookupTag dt_tag).getD {}
  match mdGetS md dt_tag with
  | none =>
    .error (.dateTimeParseError
      ("Cannot parse " ++ dt_tag ++ " " ++ strExc (.keyError dt_tag)))
  | some v0 =>
    let acc := [(td.time_tag, " "), (td.subsec_tag, "."), (td.offset_tag, "")].foldl
      (fun (acc : String × String) pr =>
        match pr.1 with
        | none => acc
        | some tg =>
          match mdGetS md tg with
          | some val =>
            if !val.isEmpty then (acc.1 ++ "+" ++ tg, acc.2 ++ pr.2 ++ val) else acc
          | none => acc) (dt_tag, v0)
    match td.pattern with
    | none =>
      .error (.dateTimeParseError
        ("Cannot parse " ++ acc.1 ++ " " ++ strExc (.keyError "pattern")))
    | some pat =>
      match matchPat pat acc.2 with
      | none =>
        .error (.dateTimeParseError ("Cannot parse " ++ acc.1 ++ " " ++
          strExc (.dateTimeParseError
            (reprStr acc.2 ++ " does not match the tag grammar"))))
      | some g => do
        let offsetOpt : Option String :=
          match td.offset_val with
          | some ov => some ov
          | none => g.offset
        -- walrus truthiness: an empty offset string is falsy
        let offset_timedelta ←
          match offsetOpt with
          | some o =>
            if o.isEmpty then pure (none : Option Int) else some <$> _parse_offset o
          | none => pure (none : Option Int)
        let subsec :=
          match g.subsec with
          | some "" => none
          | x => x
        let dt_naive ← mkDatetime g.year g.month g.day g.hour g.minute g.second
        pure ⟨dt_naive, offset_timedelta, subsec⟩

/-! ### `chk_datetime` — buckets, the per-tag pass, comparisons -/

/-- `tag_and_derived`: the tag followed by its subsecond and offset
companions that are present in the record, joined with `+`. -/
def tag_and_derived (tag : String) (md : List (String × String)) : String :=
  let td := (lookupTag tag).getD {}
  let add := fun (acc : String) (otag : Option String) =>
    match otag with
    | some tg => if (mdGetS md tg).isSome then acc ++ "+" ++ tg else acc
    | none => acc
  add (add tag td.subsec_tag) td.offset_tag

/-- `tag_and_derived(tag, md).split("+")` (tag names contain no `+`). -/
def tagAndDerivedList (tag : String) (md : List (String × String)) : List String :=
  let td := (lookupTag tag).getD {}
  let add := fun (l : List String) (otag : Option String) =>
    match otag with
    | some tg => if (mdGetS md tg).isSome then l ++ [tg] else l
    | none => l
  add (add [tag] td.subsec_tag) td.offset_tag

/-- The `ConsistencyResult` buckets, as insertion-ordered association
lists. -/
structure Buckets where
  fatal : List (String × String) := []
  fixable : List (String × String) := []
  deletable : List (String × String) := []
deriving DecidableEq

/-- Dictionary assignment `d[k] = v` on an ordered association list. -/
def assocSet (l : List (String × String)) (k v : String) : List (String × String) :=
  if l.any (fun kv => kv.1 = k) then
    l.map (fun kv => if kv.1 = k then (k, v) else kv)
  else l ++ [(k, v)]

/-- The accumulation used by the `deletable` helper: a second reason for the
same tag is joined with `"; "`. -/
def assocAddJoin (l : List (String × String)) (k msg : String) :
    List (String × String) :=
  if l.any (fun kv => kv.1 = k) then
    l.map (fun kv => if kv.1 = k then (k, kv.2 ++ "; " ++ msg) else kv)
  else l ++ [(k, msg)]

/-- The nested `deletable` helper of `check_datetime_consistency`: record
the reason against the tag and each of its present companions. -/
def Buckets.addDeletable (b : Buckets) (tags : List String) (msg : String) : Buckets :=
  {b with deletable := tags.foldl (fun l t => assocAddJoin l t msg) b.deletable}

/-- `ret.setdefault("fixable", {})[k] = v`. -/
def Buckets.setFixable (b : Buckets) (k v : String) : Buckets :=
  {b with fixable := assocSet b.fixable k v}

/-- The mutable `anchor` Munch of `check_datetime_consistency`. -/
structure AnchorState where
  tag : String
  utc : Option Int := none
  dt_naive : Option Int := none
  offset_timedelta : Option Int := none
  subsec : Option String := none
deriving DecidableEq

/-- One `dts[datetime_tag]` Munch: field presence mirrors the assignment
order `dt_naive`, `offset_timedelta`, `utc`, `subsec` of the source. -/
structure TagState where
  dt_naive : Int
  offset_timedelta : Option Int := none
  utc : Option Int := none
  subsec : Option String := none
deriving DecidableEq

/-- The exceptions caught by the per-tag loop:
`(DateTimeConsistencyError, TypeError)`. -/
def isCaughtInLoop : PyErr → Bool
  | .dateTimeParseError _ => true
  | .offsetParseError _ => true
  | .typeError _ => true
  | _ => false

/-- The body of the per-tag parsing loop for one present, non-derived,
non-anchor tag: parse it, force the offset when the definition carries
`offset_val`, adopt a non-forced offset into an anchor that lacks one, set
the tag (and, when unset, the anchor) UTC instant, and adopt a subsecond
into an anchor that lacks one. -/
def processTag (md : List (String × String)) (tag : String) (td : TagDef)
    (a : AnchorState) : Except PyErr (TagState × AnchorState) := do
  let p ← _parse_dt_with_offset_from_md_tagname md tag
  let offset1 ←
    match td.offset_val with
    | some ov =>
      if ov.isEmpty then pure p.offset_timedelta else some <$> _parse_offset ov
    | none => pure p.offset_timedelta
  let sa :=
    match offset1 with
    | some o =>
      let a1 :=
        if a.offset_timedelta.isNone ∧ td.offset_val.isNone then
          {a with offset_timedelta := some o}
        else a
      let utc := p.dt_naive - o
      let a2 := if a1.utc.isNone then {a1 with utc := some utc} else a1
      (({dt_naive := p.dt_naive, offset_timedelta := some o, utc := some utc} :
          TagState), a2)
    | none => (({dt_naive := p.dt_naive} : TagState), a)
  match sa with
  | (st, a') =>
    if p.subsec.isSome ∧ a'.subsec.isNone then
      pure ({st with subsec := p.subsec}, {a' with subsec := p.subsec})
    else pure (st, a')

/-- The parsing pass of `check_datetime_consistency` over the catalog:
absent tags are skipped, a present derived tag with an absent parent is
marked deletable, the anchor is skipped, and every other present tag is
processed; `DateTimeConsistencyError`/`TypeError` from the body are
downgraded to deletable entries, other exceptions propagate. -/
def parsePass (md : List (String × String)) :
    List (String × TagDef) → AnchorState → List (String × TagState) → Buckets →
      Except PyErr (AnchorState × List (String × TagState) × Buckets)
  | [], a, dts, b => .ok (a, dts, b)
  | (tag, td) :: rest, a, dts, b =>
    if (mdGetS md tag).isNone then parsePass md rest a dts b
    else
      match td.derived_from with
      | some parent =>
        let b' :=
          if (mdGetS md parent).isNone then
            b.addDeletable (tagAndDerivedList tag md) ("Missing " ++ parent)
          else b
        parsePass md rest a dts b'
      | none =>
        if tag = a.tag then parsePass md rest a dts b
        else
          match processTag md tag td a with
          | .error e =>
            if isCaughtInLoop e then
              parsePass md rest a dts
                (b.addDeletable (tagAndDerivedList tag md) (strExc e))
            else .error e
          | .ok (st, a') => parsePass md rest a' (dts ++ [(tag, st)]) b

/-- `exif_repr` of an optional offset comparison operand (`str(None)` is
the text `None`). -/
def exifReprOffOpt : Option Int → String
  | none => "None"
  | some o => stringify_timedelta o

/-- `exif_repr` of an optional subsecond comparison operand. -/
def exifReprSubOpt : Option String → String
  | none => "None"
  | some s => s

/-- The `utc`/`dt_naive` comparison of one field against the anchor: the
absolute difference in whole seconds must stay within the tag's tolerance,
else a deletable entry is recorded.  A missing anchor operand would be a
`TypeError` in the source (`datetime - None`), which propagates. -/
def compareDtKey (md : List (String × String)) (tagName : String)
    (a : AnchorState) (td : TagDef) (keyName : String) (val : Int)
    (anchorVal : Option Int) (b : Buckets) : Except PyErr Buckets :=
  match anchorVal with
  | none => .error (.typeError "unsupported operand type(s) for -")
  | some av =>
    let tolerance := td.tolerance_secs
    let diff := (val - av).natAbs
    if diff > tolerance then
      .ok (b.addDeletable (tagAndDerivedList tagName md)
        (tagName ++ " " ++ keyName ++ "=" ++ stringify_datetime_exif val ++
         " vs. " ++ a.tag ++ " " ++ stringify_datetime_exif av ++
         " diff_secs=" ++ toString diff ++ " tolerance_secs=" ++ toString tolerance))
    else .ok b

/-- The `offset_timedelta` comparison of one tag against the anchor:
skipped for forced-offset tags; a mismatch on a tag without an offset
companion and not timezone-aware proposes a fixable rewrite of the original
string, any other mismatch records a deletable entry. -/
def compareOffsetKey (md : List (String × String)) (tagName : String)
    (td : TagDef) (st : TagState) (a : AnchorState) (b : Buckets) : Buckets :=
  match st.offset_timedelta with
  | none => b
  | some o =>
    if td.offset_val.isSome then b
    else if (some o : Option Int) ≠ a.offset_timedelta then
      if td.offset_tag.isNone ∧ !td.tz_aware then
        let orig := (mdGetS md tagName).getD ""
        let suffix := stringify_timedelta o
        let fixVal :=
          (if strEndsWith orig suffix then orig.dropRight suffix.length else orig) ++
            exifReprOffOpt a.offset_timedelta
        b.setFixable tagName fixVal
      else
        b.addDeletable (tagAndDerivedList tagName md)
          (tagName ++ " offset=" ++ stringify_timedelta o ++ " != " ++ a.tag ++
           " " ++ exifReprOffOpt a.offset_timedelta)
    else b

/-- The `subsec` comparison of one tag against the anchor: skipped for
forced-offset tags, a mismatch records a deletable entry. -/
def compareSubsecKey (md : List (String × String)) (tagName : String)
    (td : TagDef) (st : TagState) (a : AnchorState) (b : Buckets) : Buckets :=
  match st.subsec with
  | none => b
  | some ss =>
    if td.offset_val.isSome then b
    else if (some ss : Option String) ≠ a.subsec then
      b.addDeletable (tagAndDerivedList tagName md)
        (tagName ++ " subsec=" ++ ss ++ " != " ++ a.tag ++ " " ++
         exifReprSubOpt a.subsec)
    else b

/-- The trailing block of the comparison loop: a tag that never obtained a
UTC instant while the anchor has one gets a fixable offset proposal
(offset companion, else time companion, else the tag itself) when the
anchor has an offset, else a deletable entry. -/
def compareNoUtc (md : List (String × String)) (tagName : String)
    (td : TagDef) (st : TagState) (a : AnchorState) (b : Buckets) :
    Except PyErr Buckets :=
  if st.utc.isNone ∧ a.utc.isSome then
    match a.offset_timedelta with
    | some o =>
      -- the formatted offset string is never empty, so its truthiness
      -- test in the source always passes here
      let off := stringify_timedelta o
      match td.offset_tag with
      | some ot => .ok (b.setFixable ot off)
      | none =>
        match td.time_tag with
        | some tt =>
          match mdGetS md tt with
          | some v => .ok (b.setFixable tt (v ++ off))
          | none => .error (.keyError tt)
        | none =>
          match mdGetS md tagName with
          | some v => .ok (b.setFixable tagName (v ++ off))
          | none => .error (.keyError tagName)
    | none =>
      .ok (b.addDeletable (tagAndDerivedList tagName md)
        "could not determine UTC datetime for comparison")
  else .ok b

/-- The comparison-loop body for one parsed tag: iterate its recorded
fields in insertion order (`dt_naive`, `offset_timedelta`, `utc`,
`subsec`), skipping every non-`utc` field of a forced-offset tag and the
naive comparison of a timezone-aware tag; then the trailing
could-not-determine-UTC block. -/
def compareTag (md : List (String × String)) (tagName : String) (st : TagState)
    (a : AnchorState) (b : Buckets) : Except PyErr Buckets :=
  let td := (lookupTag tagName).getD {}
  let skipNonUtc := td.offset_val.isSome
  match (if skipNonUtc ∨ td.tz_aware then .ok b
         else compareDtKey md tagName a td "dt_naive" st.dt_naive a.dt_naive b :
        Except PyErr Buckets) with
  | .error e => .error e
  | .ok b1 =>
    let b2 := compareOffsetKey md tagName td st a b1
    match (match st.utc with
           | none => (.ok b2 : Except PyErr Buckets)
           | some u => compareDtKey md tagName a td "utc" u a.utc b2) with
    | .error e => .error e
    | .ok b3 =>
      let b4 := compareSubsecKey md tagName td st a b3
      compareNoUtc md tagName td st a b4

/-- The comparison pass over the parsed tags, in their insertion order. -/
def comparePass (md : List (String × String)) :
    List (String × TagState) → AnchorState → Buckets → Except PyErr Buckets
  | [], _, b => .ok b
  | (tag, st) :: rest, a, b => do
    let b' ← compareTag md tag st a b
    comparePass md rest a b'

/-- The anchor tag: the unique catalog entry flagged `anchor`. -/
def anchorTag : String :=
  ((TAGS.find? (fun kv => kv.2.anchor)).map (·.1)).getD ""

/-- The blank anchor value that, like an absent anchor, allows the
`SourceFile`-derived fixable repair. -/
def blankAnchor : String := "                   "

/-- `re.search(r"photos/(....)/(..)/(..)", s)` at the head position. -/
def matchPhotosAt (cs : List Char) : Option (String × String × String) :=
  match cs with
  | 'p' :: 'h' :: 'o' :: 't' :: 'o' :: 's' :: '/' :: a :: b :: c :: d :: '/' ::
      e :: f :: '/' :: g :: h :: _ =>
    some (String.mk [a, b, c, d], String.mk [e, f], String.mk [g, h])
  | _ => none

/-- Leftmost `re.search` of the `photos/YYYY/MM/DD` path fragment. -/
def searchPhotos : List Char → Option (String × String × String)
  | [] => none
  | l@(_ :: rest) =>
    match matchPhotosAt l with
    | some r => some r
    | none => searchPhotos rest

/-- The state of the anchor after its initial parse (step 2–3 of §4.4):
offset and subsecond from the parse, UTC instant when the offset is
known. -/
def anchorAfterParse (p : ParsedTag) : AnchorState :=
  {tag := anchorTag, dt_naive := some p.dt_naive,
   offset_timedelta := p.offset_timedelta, subsec := p.subsec,
   utc := p.offset_timedelta.map (fun o => p.dt_naive - o)}

/-- `chk_datetime.check_datetime_consistency`: empty result when no catalog
tag is present; parse the anchor, downgrading an absent/blank anchor with a
derivable `SourceFile` date to a fixable repair and any other anchor
grammar failure to a fatal entry (`ValueError` range failures propagate);
then run the parsing pass and the comparison pass. -/
def check_datetime_consistency (md : List (String × String)) :
    Except PyErr Buckets :=
  if !(md.any (fun kv => TAGS.any (fun t => t.1 = kv.1))) then .ok {}
  else
    match _parse_dt_with_offset_from_md_tagname md anchorTag with
    | .error e =>
      match e with
      | .dateTimeParseError _ =>
        if (mdGetS md anchorTag).isNone ∨ mdGetS md anchorTag = some blankAnchor then
          match searchPhotos ((mdGetS md "SourceFile").getD "").toList with
          | some (yy, mm, dd) =>
            .ok {fixable := [(anchorTag, yy ++ ":" ++ mm ++ ":" ++ dd ++ " 00:00:00")]}
          | none => .ok {fatal := [(tag_and_derived anchorTag md, strExc e)]}
        else .ok {fatal := [(tag_and_derived anchorTag md, strExc e)]}
      | _ => .error e
    | .ok p => do
      let (a1, dts, b1) ← parsePass md TAGS (anchorAfterParse p) [] {}
      comparePass md dts a1 b1

/-! ### Concrete instances used by witnesses and counterexamples -/

/-- A polygon far from the query point but inside the 7.5-degree centroid
longitude band. -/
def exPolyA : TzPolygon :=
  {tzName := "A", bboxContains := fun _ _ => false, containsPt := fun _ _ => false,
   distTo := fun _ _ => 10, centroidLon := 5}

/-- A polygon close to the query point but far outside the longitude
band. -/
def exPolyB : TzPolygon :=
  {tzName := "B", bboxContains := fun _ _ => false, containsPt := fun _ _ => false,
   distTo := fun _ _ => 1, centroidLon := 50}

/-- A polygon containing every query point, standing for the Europe/Paris
geometry around the city. -/
def parisPoly : TzPolygon :=
  {tzName := "Europe/Paris", bboxContains := fun _ _ => true,
   containsPt := fun _ _ => true, distTo := fun _ _ => 0, centroidLon := 2}

/-- Modelled from the spec: IANA rule data for Europe/Paris around the
2024-10-27 fall-back transition (01:00 UTC, +02:00 → +01:00), times in
seconds since 1970-01-01 in the file's naive-datetime encoding. -/
def parisRulesOct : ZoneRules :=
  {transUtc := daysFromCivil 2024 10 27 * 86400 + 3600,
   offBefore := 7200, offAfter := 3600}

/-- Modelled from the spec: IANA rule data for Europe/Paris around the
2024-03-31 spring-forward transition (01:00 UTC, +01:00 → +02:00). -/
def parisRulesMar : ZoneRules :=
  {transUtc := daysFromCivil 2024 3 31 * 86400 + 3600,
   offBefore := 3600, offAfter := 7200}

/-- Naive local 2024-10-27 02:30:00 (the ambiguous Paris wall time). -/
def parisAmbiguousT : Int := daysFromCivil 2024 10 27 * 86400 + 9000

/-- Naive local 2024-03-31 02:30:00 (the nonexistent Paris wall time). -/
def parisGapT : Int := daysFromCivil 2024 3 31 * 86400 + 9000

/-- The recognized declared-offset tag keys, in the order `_extract_offset`
consults them. -/
def recognizedOffsetKeys : List String :=
  ["EXIF:OffsetTimeOriginal", "EXIF:OffsetTimeDigitized", "EXIF:OffsetTime",
   "EXIF:TimeZoneOffset"] ++ xmpOffsetKeys

/-- A record with no recognized offset tag whose only value is a bare
two-digit string. -/
def mdBareOffset : List (String × PyVal) := [("IFD0:Whatever", PyVal.str "12")]

/-- A polygon containing every point, with a permanently zero-offset
zone. -/
def zuluPoly : TzPolygon :=
  {tzName := "Etc/Zulu", bboxContains := fun _ _ => true,
   containsPt := fun _ _ => true, distTo := fun _ _ => 0, centroidLon := 0}

/-- Rules for the permanently zero-offset zone (no transition in effect). -/
def zuluRules : String → ZoneRules :=
  fun _ => {transUtc := 0, offBefore := 0, offAfter := 0}

/-- A consistent record at (0, 0) declaring the +00:00 offset. -/
def mdZulu : List (String × PyVal) :=
  [("Composite:GPSLatitude", PyVal.num 0), ("Composite:GPSLongitude", PyVal.num 0),
   ("EXIF:OffsetTimeOriginal", PyVal.str "+00:00"),
   ("EXIF:DateTimeOriginal", PyVal.str "2024:01:10 12:00:00")]

/-- The capture instant of `mdZulu`: naive 2024-01-10 12:00:00. -/
def mdZuluT : Int := daysFromCivil 2024 1 10 * 86400 + 43200

/-- A record with a secondary datetime tag but no anchor, driving the
Datetime Checker into its fatal branch. -/
def mdNoAnchor : List (String × String) :=
  [("ExifIFD:CreateDate", "2002:12:15 11:37:45")]

/-- The buckets computed for `mdNoAnchor` (a fatal singleton). -/
def noAnchorBuckets : Buckets :=
  match check_datetime_consistency mdNoAnchor with
  | .ok r => r
  | .error _ => {}

/-- A record whose anchor parses and whose CreateDate value matches the tag
grammar but carries the out-of-range month 99. -/
def mdMonth99 : List (String × String) :=
  [("ExifIFD:DateTimeOriginal", "2002:12:15 11:37:45"),
   ("ExifIFD:CreateDate", "2002:99:15 11:37:45")]

/-- A record in which the anchor carries subsecond `123` while CreateDate
carries the different subsecond `456`, both companion parents present. -/
def mdSubsecMismatch : List (String × String) :=
  [("ExifIFD:DateTimeOriginal", "2002:12:15 11:37:45"),
   ("ExifIFD:SubSecTimeOriginal", "123"),
   ("ExifIFD:CreateDate", "2002:12:15 11:37:45"),
   ("ExifIFD:SubSecTime", "456")]

/-- A record whose anchor has no offset while a forced-offset tag
(`MakerNotes:DateTimeUTC`, `offset_val = "Z"`) is present. -/
def mdForcedOffset : List (String × String) :=
  [("ExifIFD:DateTimeOriginal", "2024:01:01 10:00:00"),
   ("MakerNotes:DateTimeUTC", "2024:01:01 10:00:05")]

/-- The anchor state after the anchor parse of `mdForcedOffset`. -/
def forcedAnchor0 : AnchorState :=
  match _parse_dt_with_offset_from_md_tagname mdForcedOffset anchorTag with
  | .ok p => anchorAfterParse p
  | .error _ => {tag := anchorTag}

/-- The anchor state after the per-tag pass over `mdForcedOffset`. -/
def forcedAnchor1 : AnchorState :=
  match parsePass mdForcedOffset TAGS forcedAnchor0 [] {} with
  | .ok (a, _, _) => a
  | .error _ => forcedAnchor0

/-- A record carrying a single non-anchor tag with an embedded +01:00
offset. -/
def mdXmpOffset : List (String × String) :=
  [("XMP:CreateDate", "2024:01:01 10:00:00+01:00")]

/-- The parse of the offset-bearing tag of `mdXmpOffset`. -/
def xmpParsed : ParsedTag :=
  match _parse_dt_with_offset_from_md_tagname mdXmpOffset "XMP:CreateDate" with
  | .ok p => p
  | .error _ => ⟨0, none, none⟩

/-- The anchor state produced by one step of the per-tag pass (unchanged
when the step raises). -/
def processTagAnchor (md : List (String × String)) (tag : String)
    (td : TagDef) (a : AnchorState) : AnchorState :=
  match processTag md tag td a with
  | .ok (_, a') => a'
  | .error _ => a

end Pyumann

namespace Pyumann

/-! ### Theorems -/

/-- The single-pass fallback scan of `tz_from_coords` computes the
first-minimal-distance entry of the enumerated remainder, both overall and
restricted to the 7.5-degree centroid-longitude constraint, relative to its
accumulators. -/
theorem fallbackScan_foldl (lat lon : ℚ) (l : List TzPolygon) :
    ∀ (i : Nat) (near con : Option (Nat × ℚ)),
      fallbackScan lat lon l i near con =
        ((List.enumFrom i l).foldl
           (fun acc ip => minStep acc ip.1 (ip.2.distTo lon lat)) near,
         ((List.enumFrom i l).filter
            (fun ip => lon_delta_deg lon ip.2.centroidLon ≤ 7.5)).foldl
           (fun acc ip => minStep acc ip.1 (ip.2.distTo lon lat)) con) := by
  induction l with
  | nil => intro i near con; rfl
  | cons p rest ih =>
    intro i near con
    simp only [fallbackScan, List.enumFrom, List.filter_cons, List.foldl,
      decide_eq_true_eq]
    by_cases hc : lon_delta_deg lon p.centroidLon ≤ 7.5
    · simp only [if_pos hc, List.foldl]
      exact ih (i + 1) _ _
    · simp only [if_neg hc]
      exact ih (i + 1) _ _

/-- No polygon of the index contains the query point, so the containment
pass finds nothing. -/
theorem find?_contains_none (polys : List TzPolygon) (lat lon : ℚ)
    (hnc : ∀ p ∈ polys, p.containsPt lon lat = false) :
    polys.find? (fun p => p.bboxContains lon lat && p.containsPt lon lat) = none := by
  rw [List.find?_eq_none]
  intro x hx
  simp [hnc x hx]

/-- C1 (amended): for a query point contained in no polygon and a nonzero
`toleranceDeg`, `tz_from_coords` returns the zone of the minimum-distance
polygon among those whose centroid-longitude difference to the query
longitude (wrapping at 180 degrees) is at most the fixed constant `7.5` —
not the `toleranceDeg` argument — when that set is non-empty, otherwise the
minimum-distance polygon overall; ties go to the first-encountered
polygon.  `toleranceDeg` only enables or disables the fallback. -/
theorem tz_from_coords_fallback (polys : List TzPolygon) (lat lon tol : ℚ)
    (htol : 0 < tol)
    (hnc : ∀ p ∈ polys, p.containsPt lon lat = false) :
    tz_from_coords polys lat lon tol = fallbackSelect 7.5 lat lon polys := by
  unfold tz_from_coords fallbackSelect
  rw [find?_contains_none polys lat lon hnc]
  rw [if_neg htol.ne']
  rw [fallbackScan_foldl]
  simp only [argminDist, List.enum]

/-- Witness for C1 (amended): with tolerance 3 the fallback still uses the
7.5-degree constraint and picks the in-band polygon `A`. -/
theorem tz_from_coords_fallback_witness :
    tz_from_coords [exPolyA, exPolyB] 0 0 3 = fallbackSelect 7.5 0 0 [exPolyA, exPolyB] ∧
    tz_from_coords [exPolyA, exPolyB] 0 0 3 = some "A" :=
  ⟨tz_from_coords_fallback [exPolyA, exPolyB] 0 0 3 (by norm_num) (by decide),
   by norm_num [tz_from_coords, fallbackScan, lon_delta_deg, minStep, exPolyA,
     exPolyB, List.find?, List.get?]⟩

/-- Counterexample to C1 as stated: with `toleranceDeg = 1` the claim's
partition (threshold = the argument) would select the nearest polygon
overall, `B`, because no centroid is within 1 degree; the code instead uses
the fixed 7.5-degree threshold and returns `A`. -/
theorem tz_from_coords_tolerance_counterexample :
    (0 : ℚ) < 1 ∧
    exPolyA.containsPt 0 0 = false ∧ exPolyB.containsPt 0 0 = false ∧
    tz_from_coords [exPolyA, exPolyB] 0 0 1 = some "A" ∧
    fallbackSelect 1 0 0 [exPolyA, exPolyB] = some "B" := by
  refine ⟨by norm_num, rfl, rfl, ?_, ?_⟩
  · norm_num [tz_from_coords, fallbackScan, lon_delta_deg, minStep, exPolyA,
      exPolyB, List.find?, List.get?]
  · norm_num [fallbackSelect, argminDist, lon_delta_deg, minStep, exPolyA,
      exPolyB, List.enum, List.enumFrom, List.filter, List.get?]

/-- C9: for a point contained in no polygon, `tz_from_coords` with
tolerance `0` returns `none` — the nearest-zone fallback is disabled
entirely. -/
theorem tz_from_coords_zero_tolerance (polys : List TzPolygon) (lat lon : ℚ)
    (hnc : ∀ p ∈ polys, p.containsPt lon lat = false) :
    tz_from_coords polys lat lon 0 = none := by
  unfold tz_from_coords
  rw [find?_contains_none polys lat lon hnc]
  simp

/-- Witness for C9 at a concrete two-polygon index. -/
theorem tz_from_coords_zero_tolerance_witness :
    tz_from_coords [exPolyA, exPolyB] 0 0 0 = none :=
  tz_from_coords_zero_tolerance [exPolyA, exPolyB] 0 0 (by decide)

/-- `offAt` with `fold = 0` switches at the transition instant expressed in
the later local clock. -/
theorem ZoneRules.offAt_false (z : ZoneRules) (t : Int) :
    z.offAt t false =
      if t < z.transUtc + max z.offBefore z.offAfter then z.offBefore
      else z.offAfter := rfl

/-- `offAt` with `fold = 1` switches at the transition instant expressed in
the earlier local clock. -/
theorem ZoneRules.offAt_true (z : ZoneRules) (t : Int) :
    z.offAt t true =
      if t < z.transUtc + min z.offBefore z.offAfter then z.offBefore
      else z.offAfter := rfl

/-- C3: when the coordinates resolve to a zone and the naive local time is
ambiguous in that zone (occurs twice, fall-back transition),
`tz_offset_from_tz_unaware_dt` returns the `fold = 1` offset, which is the
post-transition offset. -/
theorem tz_offset_ambiguous (polys : List TzPolygon) (rules : String → ZoneRules)
    (lat lon : ℚ) (t : Int) (name : String)
    (hres : tz_from_coords polys lat lon = some name)
    (hamb : (rules name).Ambiguous t) :
    tz_offset_from_tz_unaware_dt polys rules lat lon t =
      some ((rules name).offAt t true) ∧
    (rules name).offAt t true = (rules name).offAfter := by
  obtain ⟨hlt, h1, h2⟩ := hamb
  have hmax : max (rules name).offBefore (rules name).offAfter =
      (rules name).offBefore := max_eq_left hlt.le
  have hmin : min (rules name).offBefore (rules name).offAfter =
      (rules name).offAfter := min_eq_right hlt.le
  have hoff0 : (rules name).offAt t false = (rules name).offBefore := by
    rw [ZoneRules.offAt_false, hmax, if_pos h2]
  have hoff1 : (rules name).offAt t true = (rules name).offAfter := by
    rw [ZoneRules.offAt_true, hmin, if_neg (by omega)]
  refine ⟨?_, hoff1⟩
  unfold tz_offset_from_tz_unaware_dt
  rw [hres]
  simp only [hoff0, hoff1]
  rw [if_pos hlt.ne']

/-- Witness for C3: Europe/Paris at naive local 2024-10-27 02:30 yields the
post-transition offset +01:00 (3600 seconds). -/
theorem tz_offset_ambiguous_witness :
    tz_offset_from_tz_unaware_dt [parisPoly] (fun _ => parisRulesOct)
      48 2 parisAmbiguousT = some 3600 := by
  have h := tz_offset_ambiguous [parisPoly] (fun _ => parisRulesOct) 48 2
    parisAmbiguousT "Europe/Paris" (by decide)
    (by refine ⟨by decide, by decide, by decide⟩)
  exact h.1.trans (by rw [h.2]; rfl)

/-- C4: when the coordinates resolve to a zone, the naive local time is
nonexistent in that zone (spring-forward gap) and the gap is at most one
hour, `tz_offset_from_tz_unaware_dt` returns the post-transition offset,
which equals the offset the rule provider gives one hour after the naive
local time. -/
theorem tz_offset_nonexistent (polys : List TzPolygon) (rules : String → ZoneRules)
    (lat lon : ℚ) (t : Int) (name : String)
    (hres : tz_from_coords polys lat lon = some name)
    (hnx : (rules name).Nonexistent t)
    (hgap : (rules name).offAfter - (rules name).offBefore ≤ 3600) :
    tz_offset_from_tz_unaware_dt polys rules lat lon t =
      some ((rules name).offAt (t + 3600) false) ∧
    (rules name).offAt (t + 3600) false = (rules name).offAfter := by
  obtain ⟨hlt, h1, h2⟩ := hnx
  have hmax : max (rules name).offBefore (rules name).offAfter =
      (rules name).offAfter := max_eq_right hlt.le
  have hmin : min (rules name).offBefore (rules name).offAfter =
      (rules name).offBefore := min_eq_left hlt.le
  have hoff0 : (rules name).offAt t false = (rules name).offBefore := by
    rw [ZoneRules.offAt_false, hmax, if_pos h2]
  have hoff1 : (rules name).offAt t true = (rules name).offAfter := by
    rw [ZoneRules.offAt_true, hmin, if_neg (by omega)]
  have hplus : (rules name).offAt (t + 3600) false = (rules name).offAfter := by
    rw [ZoneRules.offAt_false, hmax, if_neg (by omega)]
  refine ⟨?_, hplus⟩
  unfold tz_offset_from_tz_unaware_dt
  rw [hres]
  simp only [hoff0, hoff1, hplus]
  rw [if_pos hlt.ne]

/-- Witness for C4: Europe/Paris at naive local 2024-03-31 02:30 yields the
post-transition offset +02:00 (7200 seconds), the offset in force one hour
after the gap time. -/
theorem tz_offset_nonexistent_witness :
    tz_offset_from_tz_unaware_dt [parisPoly] (fun _ => parisRulesMar)
      48 2 parisGapT = some 7200 := by
  have h := tz_offset_nonexistent [parisPoly] (fun _ => parisRulesMar) 48 2
    parisGapT "Europe/Paris" (by decide)
    (by refine ⟨by decide, by decide, by decide⟩) (by decide)
  exact h.1.trans (by rw [h.2]; rfl)

/-- When the first entry whose value yields `some` under `f` is `a`, the
option-valued scan over the same list returns `f a`. -/
theorem findSome?_eq_of_find?_isSome {α β : Type} (f : α → Option β) :
    ∀ (l : List α) (a : α),
      l.find? (fun x => (f x).isSome) = some a → l.findSome? f = f a := by
  intro l
  induction l with
  | nil => intro a h; simp at h
  | cons x xs ih =>
    intro a h
    by_cases hx : (f x).isSome
    · rw [List.find?_cons_of_pos _ (by simpa using hx)] at h
      obtain rfl : x = a := by injection h
      obtain ⟨b, hb⟩ := Option.isSome_iff_exists.mp hx
      rw [List.findSome?_cons, hb]
    · rw [List.find?_cons_of_neg _ (by simpa using hx)] at h
      rw [List.findSome?_cons, Option.not_isSome_iff_eq_none.mp hx]
      exact ih a h

/-- C10: if none of the recognized timezone-offset tags is present but some
string value in the record matches the offset grammar of `normalize` (for
example a bare one- or two-digit string such as `12`), `_extract_offset`
adopts the first such value via its last-resort scan over all fields,
returns it normalized to `±HH:MM`, and does not raise the missing-offset
error. -/
theorem extract_offset_bare_scan (md : List (String × PyVal)) (k v : String)
    (habs : ∀ key ∈ recognizedOffsetKeys, mdGet md key = none)
    (hfirst : md.find? (fun kv => (scanValue kv.2).isSome) = some (k, PyVal.str v)) :
    ∃ norm, normalize v = some norm ∧ _extract_offset md = .ok norm := by
  have hk : ∀ key ∈ recognizedOffsetKeys, mdGet md key = none := habs
  have h1 : mdGet md "EXIF:OffsetTimeOriginal" = none :=
    hk _ (by simp [recognizedOffsetKeys, xmpOffsetKeys])
  have h2 : mdGet md "EXIF:OffsetTimeDigitized" = none :=
    hk _ (by simp [recognizedOffsetKeys, xmpOffsetKeys])
  have h3 : mdGet md "EXIF:OffsetTime" = none :=
    hk _ (by simp [recognizedOffsetKeys, xmpOffsetKeys])
  have h4 : mdGet md "EXIF:TimeZoneOffset" = none :=
    hk _ (by simp [recognizedOffsetKeys, xmpOffsetKeys])
  have h5 : mdGet md "XMP:TimeZone" = none :=
    hk _ (by simp [recognizedOffsetKeys, xmpOffsetKeys])
  have h6 : mdGet md "XMP:Timezone" = none :=
    hk _ (by simp [recognizedOffsetKeys, xmpOffsetKeys])
  have h7 : mdGet md "XMP:TimeZoneOffset" = none :=
    hk _ (by simp [recognizedOffsetKeys, xmpOffsetKeys])
  have h8 : mdGet md "XMP:TimezoneOffset" = none :=
    hk _ (by simp [recognizedOffsetKeys, xmpOffsetKeys])
  have h9 : mdGet md "QuickTime:TimeZone" = none :=
    hk _ (by simp [recognizedOffsetKeys, xmpOffsetKeys])
  have h10 : mdGet md "QuickTime:Timezone" = none :=
    hk _ (by simp [recognizedOffsetKeys, xmpOffsetKeys])
  have hscan : md.findSome? (fun kv => scanValue kv.2) = normalize v := by
    have h := findSome?_eq_of_find?_isSome (fun kv => scanValue kv.2) md _ hfirst
    simpa [scanValue] using h
  have hsome : (normalize v).isSome := by
    have h := List.find?_some hfirst
    simpa [scanValue] using h
  obtain ⟨n, hn⟩ := Option.isSome_iff_exists.mp hsome
  refine ⟨n, hn, ?_⟩
  unfold _extract_offset
  simp only [h1, h2, h3, h4, h5, h6, h7, h8, h9, h10, xmpOffsetKeys,
    List.findSome?_cons, List.findSome?_nil, hscan, hn]

/-- C2: under the preconditions that the record yields GPS coordinates, a
normalizable declared offset, a parseable capture datetime and a resolvable
expected offset, `check_timezone_consistency` returns silently exactly when
the declared offset equals the formatted expected offset at the exact point
or at one of the 8 probe points displaced by (±Δlat, 0), (0, ±Δlon) and
(±Δlat, ±Δlon), with Δlat = toleranceMeters/111320 and
Δlon = toleranceMeters/(111320·cos(lat)) guarded against division by ~0;
otherwise it raises `TzMismatchError`. -/
theorem check_timezone_consistency_iff (polys : List TzPolygon)
    (rules : String → ZoneRules) (cosFn : ℚ → ℚ) (md : List (String × PyVal))
    (tol lat lon : ℚ) (declared : String) (t expTd : Int)
    (hgps : _extract_lat_lon md = .ok (lat, lon))
    (hoff : _extract_offset md = .ok declared)
    (hdt : _extract_naive_local_datetime md = .ok t)
    (hexp : tz_offset_from_tz_unaware_dt polys rules lat lon t = some expTd) :
    ((declared = _format_offset_hhmm expTd ∨
        ∃ p ∈ probePoints lat lon (tol / 111320)
            (tol / max (1 / 1000000) (111320 * cosFn lat)),
          ∃ td, tz_offset_from_tz_unaware_dt polys rules p.1 p.2 t = some td ∧
            _format_offset_hhmm td = declared) →
      check_timezone_consistency polys rules cosFn md tol = .ok ()) ∧
    (¬(declared = _format_offset_hhmm expTd ∨
        ∃ p ∈ probePoints lat lon (tol / 111320)
            (tol / max (1 / 1000000) (111320 * cosFn lat)),
          ∃ td, tz_offset_from_tz_unaware_dt polys rules p.1 p.2 t = some td ∧
            _format_offset_hhmm td = declared) →
      check_timezone_consistency polys rules cosFn md tol =
        .error (.tzMismatch "Timezone offset mismatch")) := by
  have hany :
      ((probePoints lat lon (tol / 111320)
          (tol / max (1 / 1000000) (111320 * cosFn lat))).any (fun c =>
            match tz_offset_from_tz_unaware_dt polys rules c.1 c.2 t with
            | none => false
            | some td => _format_offset_hhmm td = declared) = true) ↔
        (∃ p ∈ probePoints lat lon (tol / 111320)
            (tol / max (1 / 1000000) (111320 * cosFn lat)),
          ∃ td, tz_offset_from_tz_unaware_dt polys rules p.1 p.2 t = some td ∧
            _format_offset_hhmm td = declared) := by
    rw [List.any_eq_true]
    constructor
    · rintro ⟨p, hp, hpt⟩
      refine ⟨p, hp, ?_⟩
      revert hpt
      cases h : tz_offset_from_tz_unaware_dt polys rules p.1 p.2 t with
      | none => intro hpt; simp at hpt
      | some td =>
        intro hpt
        exact ⟨td, rfl, by simpa using hpt⟩
    · rintro ⟨p, hp, td, htd, hfmt⟩
      refine ⟨p, hp, ?_⟩
      rw [htd]
      simpa using hfmt
  unfold check_timezone_consistency
  simp only [hgps, hoff, hdt, hexp]
  by_cases heq : declared = _format_offset_hhmm expTd
  · constructor
    · intro _
      simp only [if_neg (show ¬(_format_offset_hhmm expTd ≠ declared) from
        not_not_intro heq.symm)]
    · intro hn
      exact absurd (Or.inl heq) hn
  · have hne : _format_offset_hhmm expTd ≠ declared := fun h => heq h.symm
    simp only [if_pos hne]
    constructor
    · intro hc
      rcases hc with hc | hc
      · exact absurd hc heq
      · rw [if_pos (hany.mpr hc)]
    · intro hn
      have : ¬(∃ p ∈ probePoints lat lon (tol / 111320)
          (tol / max (1 / 1000000) (111320 * cosFn lat)),
            ∃ td, tz_offset_from_tz_unaware_dt polys rules p.1 p.2 t = some td ∧
              _format_offset_hhmm td = declared) := fun hc => hn (Or.inr hc)
      rw [if_neg (fun ha => this (hany.mp ha))]

/-- Witness for C2: the consistent zero-offset record passes silently. -/
theorem check_timezone_consistency_iff_witness :
    check_timezone_consistency [zuluPoly] zuluRules (fun _ => 1) mdZulu 200 =
      .ok () := by
  have h := check_timezone_consistency_iff [zuluPoly] zuluRules (fun _ => 1)
    mdZulu 200 0 0 "+00:00" mdZuluT 0 (by rfl) (by rfl) (by rfl) (by rfl)
  exact h.1 (Or.inl (by rfl))

/-- Witness for C10: the bare string `12` is adopted as `+12:00`. -/
theorem extract_offset_bare_scan_witness :
    _extract_offset mdBareOffset = .ok "+12:00" := by
  obtain ⟨n, hn, hex⟩ := extract_offset_bare_scan mdBareOffset "IFD0:Whatever" "12"
    (by intro key hkey; fin_cases hkey <;> rfl) (by rfl)
  have h12 : normalize "12" = some "+12:00" := by rfl
  have hn' : n = "+12:00" := Option.some.inj (h12.symm.trans hn).symm
  rw [hn'] at hex
  exact hex

/-- Inversion of a successful `Except` bind. -/
theorem exceptBindOk {ε α β : Type} {e : Except ε α} {f : α → Except ε β} {b : β}
    (h : (e >>= f) = .ok b) : ∃ a, e = .ok a ∧ f a = .ok b := by
  cases e with
  | error err => simp [Bind.bind, Except.bind] at h
  | ok a => exact ⟨a, rfl, by simpa [Bind.bind, Except.bind] using h⟩

/-- Adding deletable reasons never touches the fatal bucket. -/
theorem addDeletable_fatal (b : Buckets) (ts : List String) (m : String) :
    (b.addDeletable ts m).fatal = b.fatal := rfl

/-- Proposing a fixable value never touches the fatal bucket. -/
theorem setFixable_fatal (b : Buckets) (k v : String) :
    (b.setFixable k v).fatal = b.fatal := rfl

/-- The `utc`/`dt_naive` field comparison never touches the fatal bucket. -/
theorem compareDtKey_fatal (md : List (String × String)) (tagName : String)
    (a : AnchorState) (td : TagDef) (keyName : String) (val : Int)
    (anchorVal : Option Int) (b b' : Buckets)
    (h : compareDtKey md tagName a td keyName val anchorVal b = .ok b') :
    b'.fatal = b.fatal := by
  unfold compareDtKey at h
  split at h
  · simp at h
  · dsimp only at h
    split at h <;> (injection h with h; rw [← h])
    rfl

/-- The offset comparison never touches the fatal bucket. -/
theorem compareOffsetKey_fatal (md : List (String × String)) (tagName : String)
    (td : TagDef) (st : TagState) (a : AnchorState) (b : Buckets) :
    (compareOffsetKey md tagName td st a b).fatal = b.fatal := by
  unfold compareOffsetKey
  split
  · rfl
  · split
    · rfl
    · split
      · split <;> rfl
      · rfl

/-- The subsecond comparison never touches the fatal bucket. -/
theorem compareSubsecKey_fatal (md : List (String × String)) (tagName : String)
    (td : TagDef) (st : TagState) (a : AnchorState) (b : Buckets) :
    (compareSubsecKey md tagName td st a b).fatal = b.fatal := by
  unfold compareSubsecKey
  split
  · rfl
  · split
    · rfl
    · split <;> rfl

/-- The trailing no-UTC block never touches the fatal bucket. -/
theorem compareNoUtc_fatal (md : List (String × String)) (tagName : String)
    (td : TagDef) (st : TagState) (a : AnchorState) (b b' : Buckets)
    (h : compareNoUtc md tagName td st a b = .ok b') : b'.fatal = b.fatal := by
  unfold compareNoUtc at h
  split at h
  · split at h
    · dsimp only at h
      split at h
      · injection h with e; rw [← e]; rfl
      · split at h
        · split at h
          · injection h with e; rw [← e]; rfl
          · simp at h
        · split at h
          · injection h with e; rw [← e]; rfl
          · simp at h
    · injection h with e; rw [← e]; rfl
  · injection h with e; rw [← e]

/-- The comparison-loop body for one tag never touches the fatal bucket. -/
theorem compareTag_fatal (md : List (String × String)) (tagName : String)
    (st : TagState) (a : AnchorState) (b b' : Buckets)
    (h : compareTag md tagName st a b = .ok b') : b'.fatal = b.fatal := by
  unfold compareTag at h
  dsimp only at h
  split at h
  · simp at h
  · rename_i b1 heq1
    have h1 : b1.fatal = b.fatal := by
      split at heq1
      · injection heq1 with e; rw [← e]
      · exact compareDtKey_fatal _ _ _ _ _ _ _ _ _ heq1
    split at h
    · simp at h
    · rename_i b3 heq3
      have h3 : b3.fatal = b1.fatal := by
        split at heq3
        · injection heq3 with e; rw [← e]
          exact compareOffsetKey_fatal _ _ _ _ _ _
        · rw [compareDtKey_fatal _ _ _ _ _ _ _ _ _ heq3]
          exact compareOffsetKey_fatal _ _ _ _ _ _
      rw [compareNoUtc_fatal _ _ _ _ _ _ _ h, compareSubsecKey_fatal, h3, h1]

/-- The comparison pass never touches the fatal bucket. -/
theorem comparePass_fatal (md : List (String × String)) :
    ∀ (dts : List (String × TagState)) (a : AnchorState) (b b' : Buckets),
      comparePass md dts a b = .ok b' → b'.fatal = b.fatal := by
  intro dts
  induction dts with
  | nil =>
    intro a b b' h
    injection h with e; rw [← e]
  | cons x xs ih =>
    intro a b b' h
    unfold comparePass at h
    obtain ⟨b1, hb1, h⟩ := exceptBindOk h
    rw [ih a b1 b' h, compareTag_fatal md x.1 x.2 a b b1 hb1]

/-- The per-tag parsing pass never touches the fatal bucket. -/
theorem parsePass_fatal (md : List (String × String)) :
    ∀ (l : List (String × TagDef)) (a : AnchorState)
      (dts : List (String × TagState)) (b : Buckets)
      (a' : AnchorState) (dts' : List (String × TagState)) (b' : Buckets),
      parsePass md l a dts b = .ok (a', dts', b') → b'.fatal = b.fatal := by
  intro l
  induction l with
  | nil =>
    intro a dts b a' dts' b' h
    injection h with e
    rw [show b' = b from congrArg (fun x => x.2.2) e.symm]
  | cons x xs ih =>
    intro a dts b a' dts' b' h
    unfold parsePass at h
    split at h
    · exact ih _ _ _ _ _ _ h
    · split at h
      · rw [ih _ _ _ _ _ _ h]
        split <;> rfl
      · split at h
        · exact ih _ _ _ _ _ _ h
        · split at h
          · split at h
            · rw [ih _ _ _ _ _ _ h]; rfl
            · simp at h
          · exact ih _ _ _ _ _ _ h

/-- C5: whenever `check_datetime_consistency` returns a result whose fatal
bucket is non-empty, its fixable and deletable buckets are empty — anchor
failure halts all further processing. -/
theorem check_datetime_fatal_exclusive (md : List (String × String)) (r : Buckets)
    (h : check_datetime_consistency md = .ok r) (hf : r.fatal ≠ []) :
    r.fixable = [] ∧ r.deletable = [] := by
  unfold check_datetime_consistency at h
  split at h
  · injection h with e
    exact absurd (congrArg Buckets.fatal e).symm hf
  · split at h
    · split at h
      · split at h
        · split at h
          · injection h with e
            exact absurd (congrArg Buckets.fatal e).symm hf
          · injection h with e
            rw [← e]
            exact ⟨rfl, rfl⟩
        · injection h with e
          rw [← e]
          exact ⟨rfl, rfl⟩
      · simp at h
    · obtain ⟨x, hx, h2⟩ := exceptBindOk h
      obtain ⟨a1, dts1, b1⟩ := x
      have hb1 : b1.fatal = [] := parsePass_fatal md TAGS _ [] {} a1 dts1 b1 hx
      have hr : r.fatal = b1.fatal := comparePass_fatal md dts1 a1 b1 r h2
      exact absurd (hr.trans hb1) hf

/-- Witness for C5: a record whose anchor is missing produces a fatal
singleton with empty fixable and deletable buckets. -/
theorem check_datetime_fatal_exclusive_witness :
    check_datetime_consistency mdNoAnchor = .ok noAnchorBuckets ∧
    noAnchorBuckets.fatal ≠ [] ∧
    noAnchorBuckets.fixable = [] ∧ noAnchorBuckets.deletable = [] := by
  have hok : check_datetime_consistency mdNoAnchor = .ok noAnchorBuckets := by rfl
  have hf : noAnchorBuckets.fatal ≠ [] := by
    intro hcon
    exact absurd (by rfl : noAnchorBuckets.fatal.length = 1)
      (by rw [hcon]; decide)
  have h := check_datetime_fatal_exclusive mdNoAnchor noAnchorBuckets hok hf
  exact ⟨hok, hf, h.1, h.2⟩

/-- C6 (evaluation at the failing input): in `mdMonth99` the anchor parses,
but the non-anchor `ExifIFD:CreateDate` value `2002:99:15 11:37:45` matches
the tag grammar and then raises `ValueError` inside `datetime`, which
neither `_parse_dt_with_offset_from_md_tagname` (catching
`DateTimeParseError`/`KeyError`) nor the per-tag loop (catching
`DateTimeConsistencyError`/`TypeError`) catches: the whole call raises
instead of recording a deletable entry and returning. -/
theorem check_datetime_month99_valueerror :
    (_parse_dt_with_offset_from_md_tagname mdMonth99 anchorTag).isOk = true ∧
    check_datetime_consistency mdMonth99 =
      .error (.valueError "month must be in 1..12") :=
  ⟨rfl, rfl⟩

/-- C8 (evaluation at the failing input): in `mdSubsecMismatch` the anchor
carries subsecond `123` and CreateDate the different subsecond `456`, yet
the checker returns an empty result — a tag's subsecond is only recorded
for comparison when the anchor has none yet (and is then adopted, so it
trivially matches), hence a subsecond mismatch never produces a deletable
entry. -/
theorem check_datetime_subsec_mismatch_ignored :
    (_parse_dt_with_offset_from_md_tagname mdSubsecMismatch anchorTag).map
        ParsedTag.subsec = .ok (some "123") ∧
    (_parse_dt_with_offset_from_md_tagname mdSubsecMismatch
        "ExifIFD:CreateDate").map ParsedTag.subsec = .ok (some "456") ∧
    check_datetime_consistency mdSubsecMismatch = .ok {} :=
  ⟨rfl, rfl, rfl⟩

/-- Counterexample to C7 as stated: `MakerNotes:DateTimeUTC` carries a
forced offset (`offset_val = "Z"`), the anchor of `mdForcedOffset` has no
offset when the per-tag pass reaches it, yet after the pass the anchor's
offset is still unset (the adoption is guarded by `offset_val is None`);
only the anchor's UTC instant was taken from the tag. -/
theorem processTag_forced_offset_counterexample :
    ((lookupTag "MakerNotes:DateTimeUTC").getD {}).offset_val = some "Z" ∧
    forcedAnchor0.offset_timedelta = none ∧
    forcedAnchor1.offset_timedelta = none ∧
    forcedAnchor1.utc.isSome = true :=
  ⟨rfl, rfl, rfl, rfl⟩

/-- C7 (amended): during the per-tag pass, a non-anchor tag whose offset
was parsed from its value or companion — not forced by `offset_val` — is
adopted as the anchor's offset when the anchor still has none; the anchor's
UTC instant, when still unset, is set to this tag's UTC instant (the tag's
naive datetime minus that offset) and is left unchanged otherwise. -/
theorem processTag_offset_adoption (md : List (String × String)) (tag : String)
    (td : TagDef) (a : AnchorState) (p : ParsedTag) (o : Int)
    (hparse : _parse_dt_with_offset_from_md_tagname md tag = .ok p)
    (hforced : td.offset_val = none)
    (hoff : p.offset_timedelta = some o)
    (hanchor : a.offset_timedelta = none) :
    (processTag md tag td a).isOk = true ∧
    (processTagAnchor md tag td a).offset_timedelta = some o ∧
    (processTagAnchor md tag td a).utc =
      (if a.utc.isNone then some (p.dt_naive - o) else a.utc) := by
  unfold processTagAnchor processTag
  simp only [hparse, hforced, hoff, hanchor, Bind.bind, Except.bind,
    Option.isNone_none, and_self, if_true, pure, Except.pure]
  by_cases hu : a.utc.isNone
  · simp only [hu, if_true]
    split <;> simp_all [Except.isOk, Except.toBool]
  · simp only [hu, if_false]
    split
    · simp_all
    · split <;> simp_all [Except.isOk, Except.toBool]

/-- Witness for C7 (amended): the +01:00 offset embedded in
`XMP:CreateDate` is adopted by an anchor lacking one, and the anchor's UTC
instant becomes the tag's naive datetime minus one hour. -/
theorem processTag_offset_adoption_witness :
    (processTag mdXmpOffset "XMP:CreateDate"
        ((lookupTag "XMP:CreateDate").getD {}) {tag := anchorTag}).isOk = true ∧
    (processTagAnchor mdXmpOffset "XMP:CreateDate"
        ((lookupTag "XMP:CreateDate").getD {}) {tag := anchorTag}).offset_timedelta =
      some 3600 ∧
    (processTagAnchor mdXmpOffset "XMP:CreateDate"
        ((lookupTag "XMP:CreateDate").getD {}) {tag := anchorTag}).utc =
      (if ({tag := anchorTag} : AnchorState).utc.isNone then
          some (xmpParsed.dt_naive - 3600)
        else ({tag := anchorTag} : AnchorState).utc) :=
  processTag_offset_adoption mdXmpOffset "XMP:CreateDate"
    ((lookupTag "XMP:CreateDate").getD {}) {tag := anchorTag} xmpParsed 3600
    rfl rfl rfl rfl

end Pyumann
